import Mathlib

/-!
Shallow embedding of `src/resize.py` (rspisarski/resize-images).

The program has three functions:
- `resize_image`: open one image, optionally resample it to a target width
  (height from the aspect ratio), fix the output extension, convert RGBA or
  palette images to RGB for JPEG output, and save with quality, optimize and
  a fixed 72x72 DPI.
- `process_images`: create a timestamped output folder, check that the
  `images` input folder exists and holds recognized image files, and run
  `resize_image` on each file, catching per-file exceptions.
- `main`: argument-count CLI dispatch with range and format validation.

Modelling conventions: a decoded PIL image is a record of its pixel
dimensions, color mode and (ignored) input DPI metadata; `resize_image`
returns the save call it would perform (`Option` because Python raises
ZeroDivisionError when the source width is 0 and a resize is requested);
Python float arithmetic `int(target_width * (height / width))` is modelled
by exact natural truncated division.  The exact division and the float
computation can land on opposite sides of an integer — in Python
`int(49 * (1 / 49)) = 0` while `49 * 1 / 49 = 1` exactly — so no theorem
below asserts the height's numeric value except at concrete inputs where
the two agree, or in the zero-height regime
`target_width * height < width`, where the float product stays below 1 for
every width a decodable image can have.  The filesystem seen by
`process_images` is a record, the wall clock is a `timestamp` parameter,
and the per-file body of the loop (which may raise) is an explicit
`Except`-valued oracle parameter.
-/

/-- A decoded PIL image: pixel dimensions, color mode string (such as
"RGB", "RGBA", "P"), and the DPI metadata carried by the input file
(read by nothing in this program). -/
structure PILImage where
  width : Nat
  height : Nat
  mode : String
  dpi : Nat × Nat
deriving DecidableEq

/-- The save call performed at the end of `resize_image`: the path written,
the pixel dimensions and mode of the bitmap being encoded, and the keyword
arguments of `Image.save`.  `resampled` records whether the `img.resize`
branch ran. -/
structure SaveCall where
  path : List Char
  width : Nat
  height : Nat
  mode : String
  quality : Nat
  optimize : Bool
  dpi : Nat × Nat
  resampled : Bool
deriving DecidableEq

/-- Python `str.lower()` on the ASCII strings this program handles,
character by character (kernel-reducible, unlike `String.toLower`). -/
def str_lower (s : String) : String := String.mk (s.data.map Char.toLower)

/-- Python `str.upper()` on the ASCII strings this program handles. -/
def str_upper (s : String) : String := String.mk (s.data.map Char.toUpper)

/-- Python truthiness of the `target_width` argument, from line 9
`if target_width:`: `None` and `0` are falsy, every other int is truthy. -/
def truthyWidth : Option Nat → Bool
  | none => false
  | some n => n != 0

/-- Scan a reversed path for the extension split point of
`os.path.splitext`: walking from the end of the path, stop at a `/` (no
extension), or at the last `.` of the basename, which splits only when the
characters between it and the directory part are not all dots.  Returns the
reversed stem when a split happens. -/
def stripExtRev : List Char → Option (List Char)
  | [] => none
  | c :: rest =>
    if c = '/' then none
    else if c = '.' then
      if (rest.takeWhile (fun x => x != '/')).any (fun x => x != '.') then some rest
      else none
    else stripExtRev rest

/-- `os.path.splitext(p)[0]` from line 20: the path with its extension (the
part from the last dot of the basename, when that dot does not begin the
basename) removed. -/
def splitextFst (p : List Char) : List Char :=
  match stripExtRev p.reverse with
  | some s => s.reverse
  | none => p

/-- The image modes converted before JPEG encoding, line 24. -/
def alphaModes : List String := ["RGBA", "P"]

/-- The JPEG-family format names of line 24. -/
def jpegNames : List String := ["jpg", "jpeg"]

/-- Embedding of `resize_image` (lines 6-28 of `src/resize.py`): given the
decoded input image and the remaining arguments, produce the save call the
function performs, or `none` when Python would raise ZeroDivisionError
(`img.height / img.width` with a zero width, reached only when
`target_width` is truthy).  The height uses exact truncated division in
place of the source's two-rounding float computation; the two differ at
some inputs (a 49x1 source at target width 49 yields 0 in Python, 1 here),
so theorems about the height value are confined to inputs where they
coincide or to the zero-height regime. -/
def resize_image (img : PILImage) (output_path : List Char) (quality : Nat)
    (target_width : Option Nat) (output_format : String) : Option SaveCall :=
  if truthyWidth target_width && (img.width == 0) then none
  else
    let dims : Nat × Nat × Bool :=
      if truthyWidth target_width then
        let tw := target_width.getD 0
        (tw, tw * img.height / img.width, true)
      else (img.width, img.height, false)
    let output_base := splitextFst output_path
    let out_path := output_base ++ '.' :: output_format.data
    let new_mode :=
      if (jpegNames.contains (str_lower output_format)) && (alphaModes.contains img.mode)
      then "RGB" else img.mode
    some { path := out_path, width := dims.1, height := dims.2.1, mode := new_mode,
           quality := quality, optimize := true, dpi := (72, 72),
           resampled := dims.2.2 }

example : (resize_image ⟨3, 2, "RGB", (300, 300)⟩ "o.png".data 95 (some 4) "jpg").map
    SaveCall.height = some 2 := by decide

example : splitextFst "photo.png".data = "photo".data := by decide

example : splitextFst "dir.d/file".data = "dir.d/file".data := by decide

example : splitextFst ".bashrc".data = ".bashrc".data := by decide

/-- The filesystem state `process_images` observes: whether the `images`
input folder exists and, if so, the names it lists. -/
structure FS where
  imagesExists : Bool
  imagesFiles : List String
deriving DecidableEq

/-- One line printed by `process_images`, by source line. -/
inductive Msg where
  /-- Line 44: the `images` folder is missing. -/
  | errorNoFolder : Msg
  /-- Line 51: no recognized image files were found. -/
  | noImages : Msg
  /-- Line 54: the count of images about to be processed. -/
  | processingCount (n : Nat) : Msg
  /-- Line 55: the upper-cased output format. -/
  | outputFormatMsg (s : String) : Msg
  /-- Line 63: one file succeeded. -/
  | processed (f : String) : Msg
  /-- Line 65: one file raised; its name and the exception text. -/
  | errorProcessing (f : String) (e : String) : Msg
  /-- Line 67: the final summary naming the output folder. -/
  | doneMsg (folder : String) : Msg
deriving DecidableEq

/-- What one call of `process_images` did: whether the timestamped output
folder exists afterwards, the lines printed, and the image files on which
`resize_image` was invoked, in order. -/
structure ProcResult where
  outputFolder : String
  outputFolderExists : Bool
  messages : List Msg
  attempted : List String
deriving DecidableEq

/-- The recognized extensions tuple of line 40. -/
def image_extensions : List String := [".jpg", ".jpeg", ".png", ".webp", ".gif"]

/-- Line 48's filter predicate: `f.lower().endswith(image_extensions)`. -/
def isImageFile (f : String) : Bool :=
  image_extensions.any (fun e => e.data.isSuffixOf (str_lower f).data)

/-- Embedding of `process_images` (lines 30-67 of `src/resize.py`).
`timestamp` stands for `datetime.now().strftime(...)`; `perFile f` is the
outcome of the `try` body for the listed file `f` (`resize_image` together
with its I/O, which may raise — modelled as `Except.error` carrying
`str(e)`).  Note the output folder is created (line 37) before the input
folder is checked (line 43). -/
def process_images (fs : FS) (perFile : String → Except String Unit)
    (timestamp : String) (quality : Nat) (width : Option Nat) (format : String) :
    ProcResult :=
  let output_folder := "resized_images_" ++ timestamp
  if !fs.imagesExists then
    { outputFolder := output_folder, outputFolderExists := true,
      messages := [Msg.errorNoFolder], attempted := [] }
  else
    let image_files := fs.imagesFiles.filter (fun f => isImageFile f)
    if image_files.isEmpty then
      { outputFolder := output_folder, outputFolderExists := true,
        messages := [Msg.noImages], attempted := [] }
    else
      let body := image_files.map (fun f =>
        match perFile f with
        | Except.ok _ => Msg.processed f
        | Except.error e => Msg.errorProcessing f e)
      { outputFolder := output_folder, outputFolderExists := true,
        messages := Msg.processingCount image_files.length ::
          Msg.outputFormatMsg (str_upper format) :: body ++ [Msg.doneMsg output_folder],
        attempted := image_files }

/-- What `main` does after CLI dispatch: call `process_images` with the
given settings, print a validation error, or print the usage text. -/
inductive MainOutcome where
  | ranProcess (quality : Int) (width : Option Int) (format : String) : MainOutcome
  | printedError (msg : String) : MainOutcome
  | printedUsage : MainOutcome
deriving DecidableEq

/-- Digits-to-value accumulator for `parseInt`. -/
def natOfDigits (cs : List Char) : Nat :=
  cs.foldl (fun acc c => 10 * acc + (c.toNat - 48)) 0

/-- Embedding of Python `int(s)` on CLI arguments: an optional sign followed
by at least one decimal digit parses; anything else raises ValueError,
modelled as `none`. -/
def parseInt (s : String) : Option Int :=
  match s.data with
  | '-' :: rest =>
    if rest ≠ [] ∧ rest.all Char.isDigit then some (-(natOfDigits rest : Int)) else none
  | '+' :: rest =>
    if rest ≠ [] ∧ rest.all Char.isDigit then some (natOfDigits rest : Int) else none
  | cs =>
    if cs ≠ [] ∧ cs.all Char.isDigit then some (natOfDigits cs : Int) else none

/-- The accepted explicit formats of line 103. -/
def valid_formats : List String := ["jpg", "jpeg", "png", "webp"]

/-- Embedding of `main` (lines 69-114 of `src/resize.py`): dispatch on
`len(sys.argv)`, parse quality and width (ValueError from either `int()`
prints the numbers message), check ranges in source order, then the format
whitelist in the four-argument form. -/
def cli_main (argv : List String) : MainOutcome :=
  match argv with
  | [_] => MainOutcome.ranProcess 95 none "jpg"
  | [_, a1, a2] =>
    match parseInt a1, parseInt a2 with
    | some quality, some width =>
      if quality < 1 ∨ quality > 100 then
        MainOutcome.printedError "Error: Quality must be between 1 and 100"
      else if width < 1 then
        MainOutcome.printedError "Error: Width must be greater than 0"
      else MainOutcome.ranProcess quality (some width) "jpg"
    | _, _ => MainOutcome.printedError "Error: Quality and width must be valid numbers"
  | [_, a1, a2, a3] =>
    match parseInt a1, parseInt a2 with
    | some quality, some width =>
      let format := str_lower a3
      if quality < 1 ∨ quality > 100 then
        MainOutcome.printedError "Error: Quality must be between 1 and 100"
      else if width < 1 then
        MainOutcome.printedError "Error: Width must be greater than 0"
      else if !(valid_formats.contains format) then
        MainOutcome.printedError "Error: Format must be jpg, jpeg, png, or webp"
      else MainOutcome.ranProcess quality (some width) format
    | _, _ => MainOutcome.printedError "Error: Quality and width must be valid numbers"
  | _ => MainOutcome.printedUsage

example : cli_main ["rp-resize"] = MainOutcome.ranProcess 95 none "jpg" := by decide

example : cli_main ["rp-resize", "90", "1200", "webp"] =
    MainOutcome.ranProcess 90 (some 1200) "webp" := by decide

example : cli_main ["rp-resize", "101", "10"] =
    MainOutcome.printedError "Error: Quality must be between 1 and 100" := by decide

example : (process_images ⟨false, []⟩ (fun _ => Except.ok ()) "t" 95 none "jpg").messages =
    [Msg.errorNoFolder] := by decide

/-- Modelled from the spec: `round(a / b)` on the exact rational `a / b`,
rounding to the nearest integer with halves up.  Used only to state the
spec's claimed height formula. -/
def specRound (a b : Nat) : Nat := (2 * a + b) / (2 * b)

/-- Filesystem used in batch witnesses: the `images` folder exists and
lists one corrupt image, one non-image file and one good image. -/
def fsBatch : FS := ⟨true, ["a.jpg", "b.txt", "c.png"]⟩

/-- Per-file outcome oracle used in batch witnesses: `a.jpg` raises,
everything else succeeds. -/
def perFileBatch : String → Except String Unit :=
  fun f => if f = "a.jpg" then Except.error "corrupt" else Except.ok ()

/-! ## Supporting lemmas -/

/-- Characters that are neither `/` nor `.` are skipped by the reverse
extension scan. -/
theorem stripExtRev_append (l r : List Char) (hl : ∀ c ∈ l, c ≠ '/' ∧ c ≠ '.') :
    stripExtRev (l ++ r) = stripExtRev r := by
  induction l with
  | nil => rfl
  | cons c l ih =>
    have hc := hl c (List.mem_cons_self c l)
    simp only [List.cons_append, stripExtRev, if_neg hc.1, if_neg hc.2]
    exact ih (fun x hx => hl x (List.mem_cons_of_mem c hx))

/-- Appending `.ext` to a stem whose basename holds a character other than
`.` creates exactly the extension `os.path.splitext` removes, provided
`ext` itself holds no `/` and no `.`. -/
theorem splitextFst_strips (stem ext : List Char)
    (hext : ∀ c ∈ ext, c ≠ '/' ∧ c ≠ '.')
    (hstem : (stem.reverse.takeWhile (fun x => x != '/')).any (fun x => x != '.') = true) :
    splitextFst (stem ++ '.' :: ext) = stem := by
  have hrev : (stem ++ '.' :: ext).reverse = ext.reverse ++ '.' :: stem.reverse := by
    simp [List.reverse_append]
  have h1 : stripExtRev ('.' :: stem.reverse) = some stem.reverse := by
    simp only [stripExtRev, hstem]
    simp
  unfold splitextFst
  rw [hrev, stripExtRev_append _ _ (fun c hc => hext c (List.mem_reverse.mp hc)), h1]
  exact List.reverse_reverse stem

/-! ## Claim theorems -/

/-- C1 counterexample: on a 3x2 source resized to width 4 the code writes
height 2 (truncation of 8/3), not `round(4 * 2 / 3) = 3` as the claim
states. -/
theorem C1_height_not_round_counterexample :
    (resize_image ⟨3, 2, "RGB", (72, 72)⟩ "out.png".data 95 (some 4) "jpg").map
        SaveCall.height = some 2 ∧
    specRound (4 * 2) 3 = 3 ∧
    ¬ ((resize_image ⟨3, 2, "RGB", (72, 72)⟩ "out.png".data 95 (some 4) "jpg").map
        SaveCall.height = some (specRound (4 * 2) 3)) := by decide

/-- C1 amended: for a positive source width and positive target width the
resize branch runs and the output width equals the target width; the
height comes from int-truncation of Python's float product rather than
rounding — at a 3x2 source with target width 4 (where the float and the
exact quotient truncate alike) the height is 2, while rounding the exact
ratio gives 3.  The height's value at arbitrary inputs depends on float
rounding and is not asserted. -/
theorem C1_amended_width_and_truncation :
    (∀ (img : PILImage) (p : List Char) (q tw : Nat) (fmt : String),
      0 < img.width → 0 < tw →
      ∃ s, resize_image img p q (some tw) fmt = some s ∧ s.width = tw) ∧
    (resize_image ⟨3, 2, "RGB", (72, 72)⟩ "o.png".data 95 (some 4) "jpg").map
      SaveCall.height = some 2 ∧ specRound (4 * 2) 3 = 3 := by
  refine ⟨?_, by decide, by decide⟩
  intro img p q tw fmt hw htw
  obtain ⟨w, ht, md, dp⟩ := img
  cases w with
  | zero => exact absurd hw (by simp)
  | succ n =>
    cases tw with
    | zero => exact absurd htw (by simp)
    | succ m => exact ⟨_, rfl, rfl⟩

/-- C1 amended witness: a 640x480 source resized to width 200 yields a save
call of width 200. -/
theorem C1_amended_width_and_truncation_witness :
    0 < (⟨640, 480, "RGB", (300, 300)⟩ : PILImage).width ∧ 0 < 200 ∧
    (∃ s, resize_image ⟨640, 480, "RGB", (300, 300)⟩ "p.jpg".data 95 (some 200) "jpg" =
        some s ∧ s.width = 200) :=
  ⟨by decide, by decide,
    C1_amended_width_and_truncation.1 ⟨640, 480, "RGB", (300, 300)⟩ "p.jpg".data 95 200
      "jpg" (by decide) (by decide)⟩

/-- C2 counterexample: with the `images` folder missing, `process_images`
does report the condition, yet the timestamped output folder exists
afterwards, because line 37 creates it before line 43 checks the input
folder. -/
theorem C2_output_dir_created_counterexample :
    (process_images ⟨false, []⟩ (fun _ => Except.ok ()) "20240101_000000" 95 none
        "jpg").messages = [Msg.errorNoFolder] ∧
    (process_images ⟨false, []⟩ (fun _ => Except.ok ()) "20240101_000000" 95 none
        "jpg").outputFolderExists = true := by decide

/-- C2 amended: when the input folder is missing, or exists with no file of
a recognized image extension, `process_images` reports the condition and
returns with no file handed to `resize_image` — but the timestamped output
directory has already been created and exists afterwards. -/
theorem C2_amended_reports_but_dir_exists (fs : FS)
    (perFile : String → Except String Unit) (ts : String) (q : Nat)
    (w : Option Nat) (fmt : String)
    (h : fs.imagesExists = false ∨ fs.imagesFiles.filter (fun f => isImageFile f) = []) :
    (process_images fs perFile ts q w fmt).attempted = [] ∧
    (process_images fs perFile ts q w fmt).outputFolderExists = true ∧
    ((process_images fs perFile ts q w fmt).messages = [Msg.errorNoFolder] ∨
      (process_images fs perFile ts q w fmt).messages = [Msg.noImages]) := by
  rcases h with h | h
  · simp [process_images, h]
  · cases hE : fs.imagesExists
    · simp [process_images, hE]
    · simp [process_images, hE, h]

/-- C2 amended witness: a present `images` folder holding only `notes.txt`
yields the no-images report, an empty attempt list, and an existing output
folder. -/
theorem C2_amended_reports_but_dir_exists_witness :
    ((⟨true, ["notes.txt"]⟩ : FS).imagesExists = false ∨
      (⟨true, ["notes.txt"]⟩ : FS).imagesFiles.filter (fun f => isImageFile f) = []) ∧
    ((process_images ⟨true, ["notes.txt"]⟩ (fun _ => Except.ok ()) "t" 95 none
        "jpg").attempted = [] ∧
      (process_images ⟨true, ["notes.txt"]⟩ (fun _ => Except.ok ()) "t" 95 none
        "jpg").outputFolderExists = true ∧
      ((process_images ⟨true, ["notes.txt"]⟩ (fun _ => Except.ok ()) "t" 95 none
          "jpg").messages = [Msg.errorNoFolder] ∨
        (process_images ⟨true, ["notes.txt"]⟩ (fun _ => Except.ok ()) "t" 95 none
          "jpg").messages = [Msg.noImages])) :=
  ⟨Or.inr (by decide),
    C2_amended_reports_but_dir_exists ⟨true, ["notes.txt"]⟩ (fun _ => Except.ok ())
      "t" 95 none "jpg" (Or.inr (by decide))⟩

/-- C3: with two or three positional arguments whose quality and width
parse, an out-of-range quality, a width below 1, or (three-argument form)
a format outside the whitelist makes `main` print an error, so
`process_images` is never called. -/
theorem C3_invalid_args_rejected (p a1 a2 : String) (rest : List String) (q w : Int)
    (hq : parseInt a1 = some q) (hw : parseInt a2 = some w)
    (hlen : rest = [] ∨ ∃ a3, rest = [a3])
    (hbad : (q < 1 ∨ 100 < q) ∨ w < 1 ∨
      ∃ a3, rest = [a3] ∧ valid_formats.contains (str_lower a3) = false) :
    ∃ msg, cli_main (p :: a1 :: a2 :: rest) = MainOutcome.printedError msg := by
  rcases hlen with rfl | ⟨a3, rfl⟩
  · simp only [cli_main, hq, hw]
    by_cases h1 : q < 1 ∨ q > 100
    · exact ⟨_, if_pos h1⟩
    · have h2 : w < 1 := by
        rcases hbad with hb | hb | ⟨a3, h3, _⟩
        · exact absurd hb h1
        · exact hb
        · exact absurd h3 (by simp)
      exact ⟨_, (if_neg h1).trans (if_pos h2)⟩
  · simp only [cli_main, hq, hw]
    by_cases h1 : q < 1 ∨ q > 100
    · exact ⟨_, if_pos h1⟩
    · by_cases h2 : w < 1
      · exact ⟨_, (if_neg h1).trans (if_pos h2)⟩
      · have hfmt : valid_formats.contains (str_lower a3) = false := by
          rcases hbad with hb | hb | ⟨a3x, h3, hf⟩
          · exact absurd hb h1
          · exact absurd hb h2
          · injection h3 with hx _
            exact hx ▸ hf
        refine ⟨_, ((if_neg h1).trans (if_neg h2)).trans (if_pos ?_)⟩
        rw [hfmt]
        rfl

/-- C3 witness: `rp-resize 0 100` is rejected with a printed error. -/
theorem C3_invalid_args_rejected_witness :
    parseInt "0" = some 0 ∧ parseInt "100" = some 100 ∧
    ∃ msg, cli_main ["rp-resize", "0", "100"] = MainOutcome.printedError msg :=
  ⟨by decide, by decide,
    C3_invalid_args_rejected "rp-resize" "0" "100" [] 0 100 (by decide) (by decide)
      (Or.inl rfl) (Or.inl (Or.inl (by decide)))⟩

/-- C4: when the per-file body raises on some matching file, its error is
reported and `resize_image` is still attempted on every matching file of
the listing — the attempt list is the whole filtered listing. -/
theorem C4_one_failure_never_aborts_batch (fs : FS)
    (perFile : String → Except String Unit) (ts : String) (q : Nat)
    (w : Option Nat) (fmt : String) (f e : String)
    (hE : fs.imagesExists = true)
    (hf : f ∈ fs.imagesFiles.filter (fun x => isImageFile x))
    (herr : perFile f = Except.error e) :
    (process_images fs perFile ts q w fmt).attempted =
      fs.imagesFiles.filter (fun x => isImageFile x) ∧
    Msg.errorProcessing f e ∈ (process_images fs perFile ts q w fmt).messages := by
  have hne : (fs.imagesFiles.filter (fun x => isImageFile x)).isEmpty = false := by
    rw [List.isEmpty_eq_false_iff_exists_mem]
    exact ⟨f, hf⟩
  have hbody : Msg.errorProcessing f e ∈
      (fs.imagesFiles.filter (fun x => isImageFile x)).map (fun x =>
        match perFile x with
        | Except.ok _ => Msg.processed x
        | Except.error err => Msg.errorProcessing x err) :=
    List.mem_map.mpr ⟨f, hf, by rw [herr]⟩
  obtain ⟨ex, files⟩ := fs
  cases ex
  · exact absurd hE (by simp)
  · simp only [process_images, Bool.not_true, Bool.false_eq_true, if_false] at *
    rw [if_neg (by rw [hne]; exact Bool.false_ne_true)]
    exact ⟨rfl, List.mem_cons_of_mem _ (List.mem_cons_of_mem _
      (List.mem_append_left _ hbody))⟩

/-- C4 witness: over `a.jpg` (raises "corrupt"), `b.txt` (ignored) and
`c.png` (succeeds), both matching files are attempted and the error for
`a.jpg` is reported. -/
theorem C4_one_failure_never_aborts_batch_witness :
    fsBatch.imagesExists = true ∧
    "a.jpg" ∈ fsBatch.imagesFiles.filter (fun x => isImageFile x) ∧
    perFileBatch "a.jpg" = Except.error "corrupt" ∧
    ((process_images fsBatch perFileBatch "t" 95 none "jpg").attempted =
        fsBatch.imagesFiles.filter (fun x => isImageFile x) ∧
      Msg.errorProcessing "a.jpg" "corrupt" ∈
        (process_images fsBatch perFileBatch "t" 95 none "jpg").messages) :=
  ⟨rfl, by decide, rfl,
    C4_one_failure_never_aborts_batch fsBatch perFileBatch "t" 95 none "jpg"
      "a.jpg" "corrupt" rfl (by decide) rfl⟩

/-- C5: with no target width the pass-through branch runs: no resampling,
and the saved dimensions equal the source dimensions. -/
theorem C5_no_target_width_pass_through (img : PILImage) (p : List Char) (q : Nat)
    (fmt : String) :
    ∃ s, resize_image img p q none fmt = some s ∧
      s.width = img.width ∧ s.height = img.height ∧ s.resampled = false :=
  ⟨_, rfl, rfl, rfl, rfl⟩

/-- C6: a JPEG-family output format (in any letter case) together with an
RGBA or palette source mode makes the saved bitmap RGB. -/
theorem C6_jpeg_converts_alpha_to_rgb (img : PILImage) (p : List Char) (q : Nat)
    (tw : Option Nat) (fmt : String) (s : SaveCall)
    (hfmt : jpegNames.contains (str_lower fmt) = true)
    (hmode : alphaModes.contains img.mode = true)
    (h : resize_image img p q tw fmt = some s) :
    s.mode = "RGB" := by
  unfold resize_image at h
  rw [hfmt, hmode] at h
  split at h
  · exact absurd h (by simp)
  · injection h with h
    subst h
    rfl

/-- C6 witness: an RGBA source saved as `JPG` comes out in mode RGB. -/
theorem C6_jpeg_converts_alpha_to_rgb_witness :
    jpegNames.contains (str_lower "JPG") = true ∧
    alphaModes.contains (⟨4, 4, "RGBA", (72, 72)⟩ : PILImage).mode = true ∧
    ∃ s, resize_image ⟨4, 4, "RGBA", (72, 72)⟩ "x.png".data 95 none "JPG" = some s ∧
      s.mode = "RGB" :=
  ⟨by decide, by decide,
    ⟨_, rfl, C6_jpeg_converts_alpha_to_rgb ⟨4, 4, "RGBA", (72, 72)⟩ "x.png".data 95
      none "JPG" _ (by decide) (by decide) rfl⟩⟩

/-- C7: every save call carries DPI (72, 72), the given quality factor, and
optimize enabled — for every input image, hence for every input DPI. -/
theorem C7_save_dpi_quality_optimize (img : PILImage) (p : List Char) (q : Nat)
    (tw : Option Nat) (fmt : String) (s : SaveCall)
    (h : resize_image img p q tw fmt = some s) :
    s.dpi = (72, 72) ∧ s.quality = q ∧ s.optimize = true := by
  unfold resize_image at h
  split at h
  · exact absurd h (by simp)
  · injection h with h
    subst h
    exact ⟨rfl, rfl, rfl⟩

/-- C7 witness: a 300-DPI input is saved with DPI (72, 72), quality 80 and
optimize on. -/
theorem C7_save_dpi_quality_optimize_witness :
    ∃ s, resize_image ⟨10, 20, "RGB", (300, 300)⟩ "a.png".data 80 none "png" =
        some s ∧ s.dpi = (72, 72) ∧ s.quality = 80 ∧ s.optimize = true :=
  ⟨_, rfl, C7_save_dpi_quality_optimize ⟨10, 20, "RGB", (300, 300)⟩ "a.png".data 80
    none "png" _ rfl⟩

/-- C8: the written path is `splitext(outputPath)[0]` with a dot and the
output format appended; and on any stem whose basename has a non-dot
character, appending an extension free of dots and slashes is exactly
undone by `splitext`, so an existing extension is stripped before the new
one is appended. -/
theorem C8_output_path_extension_replaced (img : PILImage) (p : List Char) (q : Nat)
    (tw : Option Nat) (fmt : String) (s : SaveCall)
    (h : resize_image img p q tw fmt = some s) :
    s.path = splitextFst p ++ '.' :: fmt.data ∧
    ∀ stem ext : List Char, (∀ c ∈ ext, c ≠ '/' ∧ c ≠ '.') →
      (stem.reverse.takeWhile (fun x => x != '/')).any (fun x => x != '.') = true →
      splitextFst (stem ++ '.' :: ext) = stem := by
  constructor
  · unfold resize_image at h
    split at h
    · exact absurd h (by simp)
    · injection h with h
      subst h
      rfl
  · exact fun stem ext hext hstem => splitextFst_strips stem ext hext hstem

/-- C8 witness: saving `photo.png` as webp writes `photo.webp`, and
`splitext` strips the `.png` it would itself have produced. -/
theorem C8_output_path_extension_replaced_witness :
    (∃ s, resize_image ⟨10, 20, "RGB", (72, 72)⟩ "photo.png".data 95 none "webp" =
        some s ∧ s.path = splitextFst "photo.png".data ++ '.' :: "webp".data) ∧
    splitextFst ("photo".data ++ '.' :: "png".data) = "photo".data :=
  ⟨⟨_, rfl, (C8_output_path_extension_replaced ⟨10, 20, "RGB", (72, 72)⟩
      "photo.png".data 95 none "webp" _ rfl).1⟩,
    (C8_output_path_extension_replaced ⟨10, 20, "RGB", (72, 72)⟩ "photo.png".data 95
      none "webp" _ rfl).2 "photo".data "png".data (by decide) (by decide)⟩

/-- C9: under the stated preconditions, whenever
`targetWidth * originalHeight < originalWidth` the computed height is 0 and
the resize branch still runs, calling `img.resize` with a zero dimension
and no guard. -/
theorem C9_zero_target_height_possible (img : PILImage) (p : List Char) (q : Nat)
    (tw : Nat) (fmt : String) (hw : 0 < img.width) (htw : 0 < tw)
    (hlt : tw * img.height < img.width) :
    ∃ s, resize_image img p q (some tw) fmt = some s ∧
      s.width = tw ∧ s.height = 0 ∧ s.resampled = true := by
  obtain ⟨w, ht, md, dp⟩ := img
  cases w with
  | zero => exact absurd hw (by simp)
  | succ n =>
    cases tw with
    | zero => exact absurd htw (by simp)
    | succ m =>
      refine ⟨_, rfl, rfl, ?_, rfl⟩
      exact Nat.div_eq_of_lt hlt

/-- C9 witness: a 100x1 source resized to width 50 produces a 50x0 resize
call. -/
theorem C9_zero_target_height_possible_witness :
    0 < (⟨100, 1, "RGB", (72, 72)⟩ : PILImage).width ∧ 0 < 50 ∧
    50 * (⟨100, 1, "RGB", (72, 72)⟩ : PILImage).height <
      (⟨100, 1, "RGB", (72, 72)⟩ : PILImage).width ∧
    (∃ s, resize_image ⟨100, 1, "RGB", (72, 72)⟩ "o.jpg".data 95 (some 50) "jpg" =
        some s ∧ s.width = 50 ∧ s.height = 0 ∧ s.resampled = true) :=
  ⟨by decide, by decide, by decide,
    C9_zero_target_height_possible ⟨100, 1, "RGB", (72, 72)⟩ "o.jpg".data 95 50 "jpg"
      (by decide) (by decide) (by decide)⟩

/-- C10: `target_width = 0` is falsy, so `resize_image` silently takes the
pass-through branch — no resampling, no error, dimensions preserved. -/
theorem C10_zero_width_truthiness_pass_through (img : PILImage) (p : List Char)
    (q : Nat) (fmt : String) :
    truthyWidth (some 0) = false ∧
    ∃ s, resize_image img p q (some 0) fmt = some s ∧
      s.width = img.width ∧ s.height = img.height ∧ s.resampled = false :=
  ⟨rfl, _, rfl, rfl, rfl, rfl⟩
